import Mathlib

/-!
Shallow embedding of `lbnlp/nlp/ner.py` (class `NERClassifier` and its
configuration class `Configure`).

External collaborators (the trained sequence-tagging model, the remote
serving client, the MatScholar processor and the normalizer) are modelled
as capability records carried by the classifier, exactly as the Python
object holds `self.model`, `self.processor` and `self.normalizer`.
`predict` may fail (remote transport errors, local inference errors), so
it returns `Except String`.  Python `zip` truncates to the shorter list;
`List.zip` has the same semantics, which is what the source relies on.
-/

/-- The numeral sentinel string used by the source: `'<nUm>'`. -/
def numSentinel : String := "<nUm>"

/-- A tagged sentence: a list of `(token, tag)` pairs. -/
abbrev TaggedSent := List (String × String)

/-- A tagged document: a list of tagged sentences. -/
abbrev TaggedDoc := List TaggedSent

/-- Which model class `__init__` selected: `NERServingModel(config, api_url=...)`
(remote) or `NERModel(config)` built and restored from
`config.dir_final_model` (local). -/
inductive ModelVariant where
  | serving (api_url : String)
  | localRestored (dir : String)
  deriving DecidableEq, Repr

/-- `true` exactly on the remote (`NERServingModel`) variant. -/
def ModelVariant.isServing : ModelVariant → Bool
  | .serving _ => true
  | .localRestored _ => false

/-- The model capability: which class was chosen, and its
`predict(sequence) -> tags` operation, which may fail. -/
structure NERModelCap where
  variant : ModelVariant
  predict : List String → Except String (List String)

/-- The `MatScholarProcess` capability: `tokenize(text) -> sentences` and
`process(sent, convert_num) -> (tokens, extra)`; the source discards the
second component of `process`'s result, whose type `π` stays abstract. -/
structure ProcessorCap (π : Type) where
  tokenize : String → List String
  process : String → Bool → List String × π

/-- The `Normalizer` capability: `_concatenate_ents(tagged_doc)` with
abstract result type `γ`, and the batch
`normalize(docs, tagged_docs) -> normalized docs` with abstract
per-document result type `ν`. -/
structure NormalizerCap (γ ν : Type) where
  concatenateEnts : TaggedDoc → γ
  normalize : List String → List TaggedDoc → List ν

/-- Model of the `Configure` object built in `Configure.__init__`: the
fixed path layout relative to `LOCAL_DIR` (`os.path.dirname(__file__)`),
plus `dim_word`/`dim_char`, which `NERClassifier.__init__` assigns after
construction (`none` = the parent-class default, which is external). -/
structure Configure where
  local_dir : String
  dir_data : String
  dir_final_model : String
  filename_words : String
  filename_tags : String
  filename_chars : String
  filename_glove : String
  filename_trimmed : String
  log_path : String
  dir_output : String
  dim_word : Option Nat
  dim_char : Option Nat
  deriving DecidableEq, Repr

/-- Model of `os.path.join(a, b)` for the case the source exercises:
`b` a relative segment and `a` a base directory without trailing slash. -/
def osPathJoin (a b : String) : String :=
  a ++ ("/") ++ b

/-- `Configure.__init__`: the path layout fixed relative to `LOCAL_DIR`. -/
def mkConfigure (local_dir : String) : Configure :=
  let dir_data := osPathJoin local_dir ("models/ner")
  { local_dir := local_dir
    dir_data := dir_data
    dir_final_model := osPathJoin dir_data ("model.weights/")
    filename_words := osPathJoin dir_data ("words.txt")
    filename_tags := osPathJoin dir_data ("tags.txt")
    filename_chars := osPathJoin dir_data ("chars.txt")
    filename_glove := osPathJoin dir_data ("w2v.txt")
    filename_trimmed := osPathJoin dir_data ("glove.6B.200d.trimmed.npz")
    log_path := osPathJoin dir_data ("logs.txt")
    dir_output := osPathJoin dir_data ("results/")
    dim_word := none
    dim_char := none }

/-- The `NERClassifier` object state: the attributes set in `__init__`. -/
structure NERClassifier (π γ ν : Type) where
  config : Configure
  api_url : Option String
  model : NERModelCap
  normalizer : NormalizerCap γ ν
  processor : ProcessorCap π

/-- `NERClassifier.__init__`: builds `Configure`, sets `dim_word = 250`,
`dim_char = 50`, reads `TF_SERVING_URL` from the environment
(`env_tf_serving_url`), and selects the model: `NERServingModel` when the
URL is present, otherwise `NERModel` built and restored from
`config.dir_final_model`.  The external model constructors are the
parameters `servingModel` (given the config and the URL) and `localModel`
(given the config and the directory weights are restored from); each
yields the class's `predict` operation. -/
def mkClassifier (env_tf_serving_url : Option String) (local_dir : String)
    (servingModel : Configure → String → List String → Except String (List String))
    (localModel : Configure → String → List String → Except String (List String))
    (normalizer : NormalizerCap γ ν) (processor : ProcessorCap π) :
    NERClassifier π γ ν :=
  let config0 := mkConfigure local_dir
  let config := { config0 with dim_word := some 250, dim_char := some 50 }
  let api_url := env_tf_serving_url
  let model : NERModelCap :=
    match api_url with
    | some url => { variant := .serving url, predict := servingModel config url }
    | none =>
        { variant := .localRestored config.dir_final_model
          predict := localModel config config.dir_final_model }
  { config := config
    api_url := api_url
    model := model
    normalizer := normalizer
    processor := processor }

/-- The list comprehension shared by `tag_doc` and `tag_docs`:
`[(token, tag) if token != '<nUm>' else (token_num, tag)
  for token, token_num, tag in zip(sent, sent_num, tags)]`.
Python's three-way `zip` truncates to the shortest list, as does
`(sent.zip sent_num).zip tags`. -/
def reconstructSentence (sent sent_num tags : List String) : TaggedSent :=
  ((sent.zip sent_num).zip tags).map
    (fun p => if p.1.1 ≠ numSentinel then (p.1.1, p.2) else (p.1.2, p.2))

/-- `NERClassifier._preprocess(text)`: tokenize into sentences, then for
each sentence take `process(sent)[0]` (numeral substitution on, the
default `convert_num=True`) and `process(sent, convert_num=False)[0]`. -/
def preprocess (c : NERClassifier π γ ν) (text : String) :
    List (List String) × List (List String) :=
  let sents := c.processor.tokenize text
  (sents.map (fun s => (c.processor.process s true).1),
   sents.map (fun s => (c.processor.process s false).1))

/-- The per-sentence loop of `tag_doc`/`tag_docs`:
`for sent, sent_num in zip(...): tags = self.model.predict(sent); append(...)`.
A failing `predict` aborts the whole loop (a raised exception propagates). -/
def tagSentsLoop (predict : List String → Except String (List String)) :
    List (List String × List String) → Except String TaggedDoc
  | [] => .ok []
  | p :: rest => do
    let tags ← predict p.1
    let tail ← tagSentsLoop predict rest
    pure (reconstructSentence p.1 p.2 tags :: tail)

/-- `NERClassifier.tag_sequence(sequence)`:
`tags = self.model.predict(sequence); return [(token, tag) for token, tag in zip(sequence, tags)]`. -/
def tag_sequence (c : NERClassifier π γ ν) (sequence : List String) :
    Except String TaggedSent := do
  let tags ← c.model.predict sequence
  pure (sequence.zip tags)

/-- `NERClassifier.tag_doc(doc)`. -/
def tag_doc (c : NERClassifier π γ ν) (doc : String) : Except String TaggedDoc :=
  let (processed_sents, processed_sents_num) := preprocess c doc
  tagSentsLoop c.model.predict (processed_sents.zip processed_sents_num)

/-- The `zip(processed_sents, processed_sents_num)` pair list that
`tag_doc` iterates over. -/
def sentencePairs (c : NERClassifier π γ ν) (doc : String) :
    List (List String × List String) :=
  ((preprocess c doc).1).zip ((preprocess c doc).2)

/-- The per-document loop of `tag_docs`, whose body is the inlined text of
`tag_doc` (the source duplicates it rather than calling `tag_doc`). -/
def tagDocsLoop (c : NERClassifier π γ ν) :
    List String → Except String (List TaggedDoc)
  | [] => .ok []
  | doc :: rest => do
    let (processed_sents, processed_sents_num) := preprocess c doc
    let tagged_doc ← tagSentsLoop c.model.predict
      (processed_sents.zip processed_sents_num)
    let tagged_docs ← tagDocsLoop c rest
    pure (tagged_doc :: tagged_docs)

/-- `NERClassifier.tag_docs(docs)`. -/
def tag_docs (c : NERClassifier π γ ν) (docs : List String) :
    Except String (List TaggedDoc) :=
  tagDocsLoop c docs

/-- `NERClassifier.as_iob(docs)`: `return self.tag_docs(docs)`. -/
def as_iob (c : NERClassifier π γ ν) (docs : List String) :
    Except String (List TaggedDoc) :=
  tag_docs c docs

/-- `NERClassifier.concatenate_entities(tagged_doc)`:
`return self.normalizer._concatenate_ents(tagged_doc)`. -/
def concatenate_entities (c : NERClassifier π γ ν) (tagged_doc : TaggedDoc) : γ :=
  c.normalizer.concatenateEnts tagged_doc

/-- `NERClassifier.normalize_entities(doc, tagged_doc)`:
`return self.normalizer.normalize([doc], [tagged_doc])[0]`.  Python `[0]`
raises `IndexError` on an empty list; the `Option` models that partiality. -/
def normalize_entities (c : NERClassifier π γ ν) (doc : String)
    (tagged_doc : TaggedDoc) : Option ν :=
  (c.normalizer.normalize [doc] [tagged_doc])[0]?

/-- `NERClassifier.as_concatenated(docs)`: tag, then
`for doc in tagged_docs: concatenated.append(self.normalizer._concatenate_ents(doc))`. -/
def as_concatenated (c : NERClassifier π γ ν) (docs : List String) :
    Except String (List γ) := do
  let tagged_docs ← tag_docs c docs
  pure (tagged_docs.map (fun doc => c.normalizer.concatenateEnts doc))

/-- `NERClassifier.as_normalized(docs)`:
`tagged_docs = self.tag_docs(docs); return self.normalizer.normalize(docs, tagged_docs)`. -/
def as_normalized (c : NERClassifier π γ ν) (docs : List String) :
    Except String (List ν) := do
  let tagged_docs ← tag_docs c docs
  pure (c.normalizer.normalize docs tagged_docs)

/-- Method-call form of `tag_sequence`: result plus post-call object state.
The body only reads `self.model` and assigns no attribute, so the
post-call state is the receiver. -/
def tag_sequenceCall (c : NERClassifier π γ ν) (sequence : List String) :
    Except String TaggedSent × NERClassifier π γ ν :=
  (tag_sequence c sequence, c)

/-- Method-call form of `tag_doc` (no attribute is assigned in the body). -/
def tag_docCall (c : NERClassifier π γ ν) (doc : String) :
    Except String TaggedDoc × NERClassifier π γ ν :=
  (tag_doc c doc, c)

/-- Method-call form of `tag_docs` (no attribute is assigned in the body). -/
def tag_docsCall (c : NERClassifier π γ ν) (docs : List String) :
    Except String (List TaggedDoc) × NERClassifier π γ ν :=
  (tag_docs c docs, c)

/-- Method-call form of `as_iob` (no attribute is assigned in the body). -/
def as_iobCall (c : NERClassifier π γ ν) (docs : List String) :
    Except String (List TaggedDoc) × NERClassifier π γ ν :=
  (as_iob c docs, c)

/-- Method-call form of `as_concatenated` (no attribute is assigned). -/
def as_concatenatedCall (c : NERClassifier π γ ν) (docs : List String) :
    Except String (List γ) × NERClassifier π γ ν :=
  (as_concatenated c docs, c)

/-- Method-call form of `as_normalized` (no attribute is assigned). -/
def as_normalizedCall (c : NERClassifier π γ ν) (docs : List String) :
    Except String (List ν) × NERClassifier π γ ν :=
  (as_normalized c docs, c)

/-- Method-call form of `concatenate_entities` (no attribute is assigned). -/
def concatenate_entitiesCall (c : NERClassifier π γ ν) (tagged_doc : TaggedDoc) :
    γ × NERClassifier π γ ν :=
  (concatenate_entities c tagged_doc, c)

/-- Method-call form of `normalize_entities` (no attribute is assigned). -/
def normalize_entitiesCall (c : NERClassifier π γ ν) (doc : String)
    (tagged_doc : TaggedDoc) : Option ν × NERClassifier π γ ν :=
  (normalize_entities c doc tagged_doc, c)

/-- Post-call object state of `save_model(save_dir)`: the body calls
`build`, `restore_session` and `save_prediction_model` on the external
model object but rebinds no attribute of `self`, so the reference held in
`self.model` (and every other attribute) is unchanged. -/
def save_modelCall (c : NERClassifier π γ ν) (save_dir : String) :
    NERClassifier π γ ν :=
  let _ := save_dir
  c

/-- Post-call object state of `close_session()`: the body calls
`close_session` on the external model object and rebinds no attribute. -/
def close_sessionCall (c : NERClassifier π γ ν) : NERClassifier π γ ν := c

/-- A concrete processor: one sentence whose placeholder track carries the
sentinel at index 4 and whose preserved track carries the numeral there. -/
def demoProcessor : ProcessorCap Unit where
  tokenize := fun _ => ["Fe2O3 was heated to 100 degrees ."]
  process := fun _ convert_num =>
    (if convert_num then ["fe2o3", "was", "heated", "to", "<nUm>", "degrees", "."]
     else ["fe2o3", "was", "heated", "to", "100", "degrees", "."], ())

/-- A concrete always-succeeding predictor: one tag per token. -/
def demoPredict : List String → Except String (List String) :=
  fun toks => .ok (toks.map (fun _ => "O"))

/-- A concrete normalizer capability with small executable stand-ins. -/
def demoNormalizer : NormalizerCap Nat Nat where
  concatenateEnts := fun d => d.length
  normalize := fun docs _ => docs.map (fun _ => 7)

/-- A concrete well-behaved classifier (local variant). -/
def demoClassifier : NERClassifier Unit Nat Nat :=
  mkClassifier none ("/pkg/lbnlp/nlp") (fun _ _ => demoPredict)
    (fun _ _ => demoPredict) demoNormalizer demoProcessor

/-- A classifier whose predictor always reports a transport error. -/
def failClassifier : NERClassifier Unit Nat Nat :=
  mkClassifier (some ("http://serving")) ("/pkg/lbnlp/nlp")
    (fun _ _ _ => .error ("transport error"))
    (fun _ _ _ => .error ("transport error")) demoNormalizer demoProcessor

/-- A classifier whose predictor returns an empty tag list for every
input, violating the predict capability's length contract. -/
def badLenClassifier : NERClassifier Unit Nat Nat :=
  mkClassifier none ("/pkg/lbnlp/nlp") (fun _ _ _ => .ok [])
    (fun _ _ _ => .ok []) demoNormalizer demoProcessor

/-- A processor whose two tracks differ in length (2 tokens vs 1). -/
def mismatchProcessor : ProcessorCap Unit where
  tokenize := fun _ => ["s"]
  process := fun _ convert_num => (if convert_num then ["a", "b"] else ["a"], ())

/-- A classifier over the mismatching processor. -/
def mismatchClassifier : NERClassifier Unit Nat Nat :=
  mkClassifier none ("/pkg/lbnlp/nlp") (fun _ _ => demoPredict)
    (fun _ _ => demoPredict) demoNormalizer mismatchProcessor

/-- The raw demo document fed to the concrete classifiers. -/
def demoDoc : String := "Fe2O3 was heated to 100 degrees ."

/-- The placeholder track of the demo sentence. -/
def demoSent : List String :=
  ["fe2o3", "was", "heated", "to", "<nUm>", "degrees", "."]

/-- The preserved track of the demo sentence. -/
def demoSentNum : List String :=
  ["fe2o3", "was", "heated", "to", "100", "degrees", "."]

/-- The tags the demo predictor yields on the demo sentence. -/
def demoTags : List String := ["O", "O", "O", "O", "O", "O", "O"]

/-- The tagged sentence `tag_doc` produces on the demo document: the
numeral position carries the preserved text `"100"`. -/
def demoTaggedSent : TaggedSent :=
  [("fe2o3", "O"), ("was", "O"), ("heated", "O"), ("to", "O"),
   ("100", "O"), ("degrees", "O"), (".", "O")]

/-- The tagged document `tag_doc` produces on the demo document. -/
def demoTaggedDoc : TaggedDoc := [demoTaggedSent]

/-- Each pair produced by the reconstruction comprehension comes from the
three tracks at the same index, with the choice made by the sentinel test. -/
theorem reconstructSentence_getElem? (sent sent_num tags : List String)
    (i : Nat) (p : String × String)
    (h : (reconstructSentence sent sent_num tags)[i]? = some p) :
    ∃ a b g, sent[i]? = some a ∧ sent_num[i]? = some b ∧ tags[i]? = some g ∧
      p = if a ≠ numSentinel then (a, g) else (b, g) := by
  unfold reconstructSentence at h
  rw [List.getElem?_map] at h
  cases hq : ((sent.zip sent_num).zip tags)[i]? with
  | none => rw [hq] at h; simp at h
  | some q =>
    rw [hq] at h
    obtain ⟨h1, h2⟩ := (List.getElem?_zip_eq_some).mp hq
    obtain ⟨h11, h12⟩ := (List.getElem?_zip_eq_some).mp h1
    refine ⟨q.1.1, q.1.2, q.2, h11, h12, h2, ?_⟩
    simpa using h.symm

/-- The reconstruction comprehension truncates to the shortest track. -/
theorem reconstructSentence_length (sent sent_num tags : List String) :
    (reconstructSentence sent sent_num tags).length =
      min (min sent.length sent_num.length) tags.length := by
  simp [reconstructSentence]

/-- A successful sentence loop relates input pairs and output sentences
pointwise: each output sentence is the reconstruction of its pair under a
successful prediction. -/
theorem tagSentsLoop_ok (predict : List String → Except String (List String)) :
    ∀ (pairs : List (List String × List String)) (t : TaggedDoc),
      tagSentsLoop predict pairs = .ok t →
      List.Forall₂ (fun p ts => ∃ tags, predict p.1 = .ok tags ∧
        ts = reconstructSentence p.1 p.2 tags) pairs t := by
  intro pairs
  induction pairs with
  | nil =>
    intro t h
    simp only [tagSentsLoop] at h
    cases h
    exact List.Forall₂.nil
  | cons p rest ih =>
    intro t h
    simp only [tagSentsLoop] at h
    cases hp : predict p.1 with
    | error e => rw [hp] at h; simp [Bind.bind, Except.bind] at h
    | ok tags =>
      rw [hp] at h
      cases hr : tagSentsLoop predict rest with
      | error e => rw [hr] at h; simp [Bind.bind, Except.bind] at h
      | ok tail =>
        rw [hr] at h
        simp only [Bind.bind, Except.bind, pure, Except.pure, Except.ok.injEq] at h
        cases h
        exact List.Forall₂.cons ⟨tags, hp, rfl⟩ (ih tail hr)

/-- The first failing prediction in the sentence loop aborts it with that
error, regardless of what follows. -/
theorem tagSentsLoop_error (predict : List String → Except String (List String)) :
    ∀ (pre : List (List String × List String)) (p : List String × List String)
      (post : List (List String × List String)) (e : String),
      (∀ q ∈ pre, ∃ tags, predict q.1 = .ok tags) →
      predict p.1 = .error e →
      tagSentsLoop predict (pre ++ p :: post) = .error e := by
  intro pre
  induction pre with
  | nil =>
    intro p post e _ hp
    simp only [List.nil_append, tagSentsLoop, hp]
    rfl
  | cons q rest ih =>
    intro p post e hpre hp
    obtain ⟨tags, hq⟩ := hpre q (by simp)
    have hrest := ih p post e (fun r hr => hpre r (by simp [hr])) hp
    have hstep : tagSentsLoop predict ((q :: rest) ++ p :: post) =
        (predict q.1).bind (fun tags =>
          (tagSentsLoop predict (rest ++ p :: post)).bind
            (fun tail => Except.ok (reconstructSentence q.1 q.2 tags :: tail))) := rfl
    rw [hstep, hq, hrest]
    rfl

/-- When every prediction succeeds, the sentence loop succeeds. -/
theorem tagSentsLoop_total (predict : List String → Except String (List String))
    (hp : ∀ s, ∃ tags, predict s = .ok tags) :
    ∀ pairs : List (List String × List String),
      ∃ t, tagSentsLoop predict pairs = .ok t := by
  intro pairs
  induction pairs with
  | nil => exact ⟨[], rfl⟩
  | cons p rest ih =>
    obtain ⟨tags, hq⟩ := hp p.1
    obtain ⟨t, ht⟩ := ih
    refine ⟨reconstructSentence p.1 p.2 tags :: t, ?_⟩
    simp only [tagSentsLoop, hq, ht]
    rfl

/-- Pointwise reading of `List.Forall₂` through optional indexing. -/
theorem forall₂_getElem?_rel {α β : Type} {R : α → β → Prop} :
    ∀ {l₁ : List α} {l₂ : List β}, List.Forall₂ R l₁ l₂ →
      ∀ {i : Nat} {a : α} {b : β}, l₁[i]? = some a → l₂[i]? = some b → R a b := by
  intro l₁ l₂ h
  induction h with
  | nil => intro i a b ha _; simp at ha
  | cons hr _ ih =>
    intro i a b ha hb
    cases i with
    | zero =>
      simp only [List.getElem?_cons_zero, Option.some.injEq] at ha hb
      cases ha; cases hb; exact hr
    | succ n =>
      simp only [List.getElem?_cons_succ] at ha hb
      exact ih ha hb

/-- Per-sentence output lengths of a successful sentence loop over the two
parallel tracks: under the predict length contract and the track-length
invariant, each tagged sentence has exactly the placeholder track's length. -/
theorem tagSentsLoop_map_length
    (predict : List String → Except String (List String))
    (hlen : ∀ s tags, predict s = .ok tags → tags.length = s.length)
    (fT fF : String → List String) :
    ∀ sents : List String,
      (∀ s ∈ sents, (fT s).length = (fF s).length) →
      ∀ t : TaggedDoc,
        tagSentsLoop predict ((sents.map fT).zip (sents.map fF)) = .ok t →
        t.map List.length = sents.map (fun s => (fT s).length) := by
  intro sents
  induction sents with
  | nil =>
    intro _ t h
    simp only [List.map_nil, List.zip_nil_left, tagSentsLoop] at h
    cases h
    rfl
  | cons s rest ih =>
    intro hTF t h
    rw [List.map_cons, List.map_cons, List.zip_cons_cons] at h
    have hstep : tagSentsLoop predict
        ((fT s, fF s) :: (rest.map fT).zip (rest.map fF)) =
        (predict (fT s)).bind (fun tags =>
          (tagSentsLoop predict ((rest.map fT).zip (rest.map fF))).bind
            (fun tail => Except.ok (reconstructSentence (fT s) (fF s) tags :: tail))) := rfl
    rw [hstep] at h
    cases hp : predict (fT s) with
    | error e => rw [hp] at h; exact absurd h (by simp [Except.bind])
    | ok tags =>
      rw [hp] at h
      cases hr : tagSentsLoop predict ((rest.map fT).zip (rest.map fF)) with
      | error e => rw [hr] at h; exact absurd h (by simp [Except.bind])
      | ok tail =>
        rw [hr] at h
        simp only [Except.bind, Except.ok.injEq] at h
        cases h
        have hhead : (reconstructSentence (fT s) (fF s) tags).length = (fT s).length := by
          have h1 := hTF s (by simp)
          have h2 := hlen _ _ hp
          rw [reconstructSentence_length]
          omega
        simp only [List.map_cons, hhead,
          ih (fun r hr2 => hTF r (by simp [hr2])) tail hr]

/-- C1: in every tagged sentence produced by `tag_doc`, the surface token
at each index is the numeric-preserved token whenever the placeholder
token at that index equals the sentinel `'<nUm>'`, and the placeholder
token otherwise; hence, when the preserved track is sentinel-free (the §3
invariant), a numeral position never reports the sentinel. -/
theorem tag_doc_numeral_reconstruction (c : NERClassifier π γ ν) (doc : String)
    (t : TaggedDoc) (k i : Nat) (sent sent_num tags : List String)
    (ts : TaggedSent) (p : String × String) (a b g : String)
    (hok : tag_doc c doc = .ok t)
    (hsp : (sentencePairs c doc)[k]? = some (sent, sent_num))
    (hpredict : c.model.predict sent = .ok tags)
    (hts : t[k]? = some ts) (hp : ts[i]? = some p)
    (ha : sent[i]? = some a) (hb : sent_num[i]? = some b)
    (hg : tags[i]? = some g) :
    p = (if a ≠ numSentinel then (a, g) else (b, g)) ∧
    (numSentinel ∉ sent_num → p.1 ≠ numSentinel) := by
  have hloop : tagSentsLoop c.model.predict (sentencePairs c doc) = .ok t := hok
  have hrel := forall₂_getElem?_rel (tagSentsLoop_ok _ _ _ hloop) hsp hts
  obtain ⟨tags2, hpred2, hts2⟩ := hrel
  have htags : tags2 = tags := by
    have h2 : Except.ok (ε := String) tags2 = Except.ok tags := by
      rw [← hpred2]
      exact hpredict
    exact Except.ok.inj h2
  rw [htags] at hts2
  rw [hts2] at hp
  obtain ⟨a2, b2, g2, ha2, hb2, hg2, hpe⟩ :=
    reconstructSentence_getElem? sent sent_num tags i p hp
  have haa : a = a2 := by
    rw [ha2] at ha
    exact (Option.some.inj ha).symm
  have hbb : b = b2 := by
    rw [hb2] at hb
    exact (Option.some.inj hb).symm
  have hgg : g = g2 := by
    rw [hg2] at hg
    exact (Option.some.inj hg).symm
  subst haa
  subst hbb
  subst hgg
  refine ⟨hpe, ?_⟩
  intro hns hbad
  by_cases hcase : a = numSentinel
  · have hpb : p = (b, g) := by simpa [hcase] using hpe
    rw [hpb] at hbad
    have hbsent : b = numSentinel := hbad
    exact hns (hbsent ▸ List.getElem?_mem hb)
  · have hpa : p = (a, g) := by simpa [hcase] using hpe
    rw [hpa] at hbad
    exact hcase hbad

/-- Witness for C1 on the demo classifier: the sentence has the sentinel
at index 4; the tagged sentence reports `"100"` there, not the sentinel. -/
theorem tag_doc_numeral_reconstruction_witness :
    (("100", "O") : String × String) =
      (if ("<nUm>" : String) ≠ numSentinel then (("<nUm>" : String), ("O" : String))
       else (("100" : String), ("O" : String))) ∧
    (numSentinel ∉ demoSentNum → (("100", "O") : String × String).1 ≠ numSentinel) :=
  tag_doc_numeral_reconstruction demoClassifier demoDoc demoTaggedDoc 0 4
    demoSent demoSentNum demoTags demoTaggedSent ("100", "O")
    ("<nUm>") ("100") ("O") rfl rfl rfl rfl rfl rfl rfl rfl

/-- Counterexample to C2: with a predictor that returns an empty tag list,
`tag_sequence` returns zero pairs on a one-token sentence — the
output-length-equals-input-length postcondition is not unconditional. -/
theorem tag_sequence_length_cex :
    tag_sequence badLenClassifier ["a"] = Except.ok [] ∧
    (["a"] : List String).length = 1 ∧
    ([] : TaggedSent).length = 0 :=
  ⟨rfl, rfl, rfl⟩

/-- C2 as amended: `tag_sequence` pairs the i-th token with the i-th
predicted tag, truncating to the shorter of the two (`zip` semantics), so
its length is `min` of the input length and the tag-list length; the
length equals the input length exactly when `predict` kept its one-tag-
per-token contract. -/
theorem tag_sequence_length_amended (c : NERClassifier π γ ν)
    (sequence : List String) (out : TaggedSent)
    (h : tag_sequence c sequence = .ok out) :
    ∃ tags, c.model.predict sequence = .ok tags ∧ out = sequence.zip tags ∧
      out.length = min sequence.length tags.length ∧
      (tags.length = sequence.length → out.length = sequence.length) := by
  have hstep : tag_sequence c sequence =
      (c.model.predict sequence).bind
        (fun tags => Except.ok (sequence.zip tags)) := rfl
  rw [hstep] at h
  cases hp : c.model.predict sequence with
  | error e =>
    rw [hp] at h
    exact absurd h (by simp [Except.bind])
  | ok tags =>
    rw [hp] at h
    simp only [Except.bind, Except.ok.injEq] at h
    refine ⟨tags, rfl, h.symm, ?_, ?_⟩
    · rw [← h]
      exact List.length_zip ..
    · intro hl
      rw [← h, List.length_zip, hl, Nat.min_self]

/-- Witness for the amended C2 on the demo classifier. -/
theorem tag_sequence_length_amended_witness :
    ∃ tags, demoClassifier.model.predict ["a"] = Except.ok tags ∧
      ([("a", "O")] : TaggedSent) = (["a"] : List String).zip tags ∧
      ([("a", "O")] : TaggedSent).length =
        min (["a"] : List String).length tags.length ∧
      (tags.length = (["a"] : List String).length →
        ([("a", "O")] : TaggedSent).length = (["a"] : List String).length) :=
  tag_sequence_length_amended demoClassifier ["a"] [("a", "O")] rfl

/-- Counterexample to C3: on a sentence whose placeholder track has two
tokens but whose preserved track has one, `tag_doc` does not abort with an
error; it silently returns a truncated one-token tagged sentence. -/
theorem tag_doc_mismatch_cex :
    (preprocess mismatchClassifier ("x")).1 = [["a", "b"]] ∧
    (preprocess mismatchClassifier ("x")).2 = [["a"]] ∧
    tag_doc mismatchClassifier ("x") = Except.ok [[("a", "O")]] :=
  ⟨rfl, rfl, rfl⟩

/-- C3 as amended: `tag_doc` performs no track-length check.  Whenever
every prediction succeeds it returns a tagged document — even when the
two tracks differ in length — with each sentence truncated to the
shortest of the placeholder track, the preserved track and the tags. -/
theorem tag_doc_no_mismatch_abort (c : NERClassifier π γ ν) (doc : String)
    (hpredict : ∀ s, ∃ tags, c.model.predict s = .ok tags) :
    ∃ t, tag_doc c doc = .ok t ∧
      List.Forall₂ (fun sp ts => ∃ tags, c.model.predict sp.1 = .ok tags ∧
          ts.length = min (min sp.1.length sp.2.length) tags.length)
        (sentencePairs c doc) t := by
  obtain ⟨t, ht⟩ := tagSentsLoop_total c.model.predict hpredict (sentencePairs c doc)
  refine ⟨t, ht, ?_⟩
  refine (tagSentsLoop_ok _ _ _ ht).imp ?_
  intro sp ts hrel
  obtain ⟨tags, hp, hts⟩ := hrel
  exact ⟨tags, hp, by rw [hts, reconstructSentence_length]⟩

/-- Witness for the amended C3 at the mismatching classifier. -/
theorem tag_doc_no_mismatch_abort_witness :
    ∃ t, tag_doc mismatchClassifier ("x") = Except.ok t ∧
      List.Forall₂ (fun sp ts => ∃ tags,
          mismatchClassifier.model.predict sp.1 = Except.ok tags ∧
          ts.length = min (min sp.1.length sp.2.length) tags.length)
        (sentencePairs mismatchClassifier ("x")) t :=
  tag_doc_no_mismatch_abort mismatchClassifier ("x")
    (fun s => ⟨s.map (fun _ => "O"), rfl⟩)

/-- C4: if the model's `predict` raises on some sentence (all earlier
sentences having succeeded), `tag_doc` fails with that error propagated;
it never substitutes an empty tag sequence for the failed prediction. -/
theorem tag_doc_propagates_predict_error (c : NERClassifier π γ ν) (doc : String)
    (pre post : List (List String × List String))
    (p : List String × List String) (e : String)
    (hsplit : sentencePairs c doc = pre ++ p :: post)
    (hpre : ∀ q ∈ pre, ∃ tags, c.model.predict q.1 = .ok tags)
    (herr : c.model.predict p.1 = .error e) :
    tag_doc c doc = .error e := by
  have hloop : tagSentsLoop c.model.predict (sentencePairs c doc) = .error e := by
    rw [hsplit]
    exact tagSentsLoop_error _ _ _ _ _ hpre herr
  exact hloop

/-- Witness for C4: the remote-variant classifier whose transport always
fails makes `tag_doc` fail with the propagated transport error. -/
theorem tag_doc_propagates_predict_error_witness :
    tag_doc failClassifier ("d") = Except.error ("transport error") :=
  tag_doc_propagates_predict_error failClassifier ("d") [] []
    (demoSent, demoSentNum) ("transport error") rfl
    (fun q hq => absurd hq (List.not_mem_nil q)) rfl

/-- C5: `tag_docs` (whose body is the inlined text of `tag_doc`) returns
exactly one `tag_doc` result per input document in order — the monadic
list comprehension over `tag_doc` — and `as_iob` is its alias. -/
theorem tag_docs_eq_map_tag_doc (c : NERClassifier π γ ν) (docs : List String) :
    tag_docs c docs = docs.mapM (fun d => tag_doc c d) ∧
    as_iob c docs = docs.mapM (fun d => tag_doc c d) := by
  have h : ∀ ds : List String, tag_docs c ds = ds.mapM (fun d => tag_doc c d) := by
    intro ds
    induction ds with
    | nil => rfl
    | cons d rest ih =>
      have hstep : tag_docs c (d :: rest) =
          (tag_doc c d).bind (fun td => (tag_docs c rest).bind
            (fun tds => Except.ok (td :: tds))) := rfl
      rw [List.mapM_cons, hstep, ih]
      rfl
  exact ⟨h docs, h docs⟩

/-- C7: `as_concatenated` equals tagging first (`tag_docs`) and then
applying `concatenate_entities` to every tagged document in order. -/
theorem as_concatenated_eq_concat_tagged (c : NERClassifier π γ ν)
    (docs : List String) :
    as_concatenated c docs =
      Except.map (fun tds => tds.map (fun td => concatenate_entities c td))
        (tag_docs c docs) := by
  have hstep : as_concatenated c docs =
      (tag_docs c docs).bind (fun tds =>
        Except.ok (tds.map (fun td => c.normalizer.concatenateEnts td))) := rfl
  rw [hstep]
  cases h : tag_docs c docs with
  | error e => rfl
  | ok tds => rfl

/-- C8: `normalize_entities` unwraps the head of the batch `normalize`
capability applied to singleton batches, and `as_normalized` applies the
batch capability to the documents and their `tag_docs` output. -/
theorem normalize_batch_api (c : NERClassifier π γ ν) (doc : String)
    (tagged_doc : TaggedDoc) (docs : List String) (v : ν) (rest : List ν)
    (hbatch : c.normalizer.normalize [doc] [tagged_doc] = v :: rest) :
    normalize_entities c doc tagged_doc = some v ∧
    as_normalized c docs =
      Except.map (fun tds => c.normalizer.normalize docs tds)
        (tag_docs c docs) := by
  constructor
  · unfold normalize_entities
    rw [hbatch]
    exact List.getElem?_cons_zero
  · have hstep : as_normalized c docs =
        (tag_docs c docs).bind (fun tds =>
          Except.ok (c.normalizer.normalize docs tds)) := rfl
    rw [hstep]
    cases h : tag_docs c docs with
    | error e => rfl
    | ok tds => rfl

/-- Witness for C8 on the demo classifier and its stand-in normalizer. -/
theorem normalize_batch_api_witness :
    normalize_entities demoClassifier ("d") [] = some 7 ∧
    as_normalized demoClassifier ["dA"] =
      Except.map (fun tds => demoClassifier.normalizer.normalize ["dA"] tds)
        (tag_docs demoClassifier ["dA"]) :=
  normalize_batch_api demoClassifier ("d") [] ["dA"] 7 [] rfl

/-- C6: a successful `tag_doc` has one tagged sentence per tokenized
sentence, and — under the predict length contract and the track-length
invariant — the total tagged-token count equals the total token count of
the processed (placeholder-track) re-tokenization of the document. -/
theorem tag_doc_sentence_and_token_counts (c : NERClassifier π γ ν)
    (doc : String) (t : TaggedDoc)
    (hok : tag_doc c doc = .ok t)
    (hpredict : ∀ s tags, c.model.predict s = .ok tags → tags.length = s.length)
    (htracks : ∀ s ∈ c.processor.tokenize doc,
      ((c.processor.process s true).1).length =
        ((c.processor.process s false).1).length) :
    t.length = (c.processor.tokenize doc).length ∧
    (t.map List.length).sum = (((preprocess c doc).1).map List.length).sum := by
  have hloop : tagSentsLoop c.model.predict
      (((c.processor.tokenize doc).map (fun s => (c.processor.process s true).1)).zip
        ((c.processor.tokenize doc).map (fun s => (c.processor.process s false).1))) =
      .ok t := hok
  have hmap := tagSentsLoop_map_length c.model.predict hpredict
    (fun s => (c.processor.process s true).1)
    (fun s => (c.processor.process s false).1)
    (c.processor.tokenize doc) htracks t hloop
  constructor
  · simpa using congrArg List.length hmap
  · have h2 : ((preprocess c doc).1).map List.length =
        (c.processor.tokenize doc).map
          (fun s => ((c.processor.process s true).1).length) := by
      simp [preprocess, List.map_map]
    rw [hmap, h2]

/-- Witness for C6 on the demo classifier: one sentence, seven tokens on
both sides. -/
theorem tag_doc_sentence_and_token_counts_witness :
    demoTaggedDoc.length = (demoClassifier.processor.tokenize demoDoc).length ∧
    (demoTaggedDoc.map List.length).sum =
      (((preprocess demoClassifier demoDoc).1).map List.length).sum :=
  tag_doc_sentence_and_token_counts demoClassifier demoDoc demoTaggedDoc rfl
    (fun s tags h => by
      injection h with h2
      rw [← h2, List.length_map])
    (fun s _ => rfl)

/-- C9: at construction the classifier stores the environment URL, selects
the remote (`NERServingModel`) variant exactly when the URL is present,
otherwise the local variant restored from the fixed
`config.dir_final_model` location; and no public operation replaces the
selected model afterwards. -/
theorem classifier_variant_selection (env : Option String) (u local_dir : String)
    (sm lm : Configure → String → List String → Except String (List String))
    (nz : NormalizerCap γ ν) (pr : ProcessorCap π)
    (c : NERClassifier π γ ν) (sequence : List String) (doc : String)
    (docs : List String) (td : TaggedDoc) (save_dir : String) :
    (mkClassifier env local_dir sm lm nz pr).api_url = env ∧
    (mkClassifier (some u) local_dir sm lm nz pr).model.variant =
      ModelVariant.serving u ∧
    (mkClassifier none local_dir sm lm nz pr).model.variant =
      ModelVariant.localRestored (mkConfigure local_dir).dir_final_model ∧
    (mkClassifier env local_dir sm lm nz pr).model.variant.isServing =
      env.isSome ∧
    (tag_sequenceCall c sequence).2.model = c.model ∧
    (tag_docCall c doc).2.model = c.model ∧
    (tag_docsCall c docs).2.model = c.model ∧
    (as_iobCall c docs).2.model = c.model ∧
    (as_concatenatedCall c docs).2.model = c.model ∧
    (as_normalizedCall c docs).2.model = c.model ∧
    (concatenate_entitiesCall c td).2.model = c.model ∧
    (normalize_entitiesCall c doc td).2.model = c.model ∧
    (save_modelCall c save_dir).model = c.model ∧
    (close_sessionCall c).model = c.model := by
  refine ⟨?_, rfl, rfl, ?_, rfl, rfl, rfl, rfl, rfl, rfl, rfl, rfl, rfl, rfl⟩
  · cases env <;> rfl
  · cases env <;> rfl

/-- C10: every tagging, concatenation and normalization method leaves the
classifier's own state (all five attributes) unchanged: the method bodies
contain no attribute assignment, so the post-call object equals the
receiver. -/
theorem methods_leave_state_unchanged (c : NERClassifier π γ ν)
    (sequence : List String) (doc : String) (docs : List String)
    (td : TaggedDoc) :
    (tag_sequenceCall c sequence).2 = c ∧
    (tag_docCall c doc).2 = c ∧
    (tag_docsCall c docs).2 = c ∧
    (as_iobCall c docs).2 = c ∧
    (as_concatenatedCall c docs).2 = c ∧
    (as_normalizedCall c docs).2 = c ∧
    (concatenate_entitiesCall c td).2 = c ∧
    (normalize_entitiesCall c doc td).2 = c :=
  ⟨rfl, rfl, rfl, rfl, rfl, rfl, rfl, rfl⟩
